import Mathlib

/-!
Shallow embedding of the ZT3 stock screener core
(`screener_logic.py`, `data_fetcher.py`, `failure_report.py`, `main.py`).

Numeric values are modelled as rationals (the Python code works with
floats; all comparisons and arithmetic used by the screener are exact,
and rational inputs never produce NaN, so the `pd.isna` guards reduce
to the explicit zero checks that accompany them in the source).
-/

set_option autoImplicit false

/-- One row of the historical-candle DataFrame built by
`fetch_historical_data` (columns `timestamp, open, high, low, close,
volume, open_interest`). -/
structure Bar where
  timestamp : Int
  open_ : Rat
  high : Rat
  low : Rat
  close : Rat
  volume : Rat
  open_interest : Rat
  deriving DecidableEq

instance : Inhabited Bar := ⟨⟨0, 0, 0, 0, 0, 0, 0⟩⟩

/-- The `screener` section of `config.settings` read at the top of
`screener_logic.py` (module-level constants `LOOKBACK_PERIOD`,
`MIN_CLOSE_PRICE`, `MAX_PRICE`, `ENABLE_MAX_PRICE_LIMIT`, ...). -/
structure ScreenerConfig where
  lookback_period : Nat
  min_price : Rat
  max_price : Rat
  enable_max_price_limit : Bool
  price_drop_percent_max : Rat
  price_drop_percent_min : Rat
  ema_period_long : Nat
  ema_period_short : Nat
  avg_volume_lookback : Nat
  volume_surge_min : Rat
  volume_surge_max : Rat
  deriving DecidableEq

/-- `TOTAL_RULES = 7 if ENABLE_MAX_PRICE_LIMIT else 6` (screener_logic.py line 23). -/
def totalRules (cfg : ScreenerConfig) : Nat :=
  if cfg.enable_max_price_limit then 7 else 6

/-- `required_candles = max(LOOKBACK_PERIOD, AVG_VOLUME_LOOKBACK + 1, EMA_PERIOD_LONG, EMA_PERIOD_SHORT)`
(screener_logic.py line 65). -/
def requiredCandles (cfg : ScreenerConfig) : Nat :=
  max (max cfg.lookback_period (cfg.avg_volume_lookback + 1))
    (max cfg.ema_period_long cfg.ema_period_short)

/-- Insert one element into a list already ordered by `le`. -/
def insertBy {α : Type} (le : α → α → Bool) (a : α) : List α → List α
  | [] => [a]
  | b :: t => if le a b then a :: b :: t else b :: insertBy le a t

/-- Model of `df.sort_values('timestamp')` (screener_logic.py line 77):
a comparison sort on the timestamp column.  On series with pairwise
distinct timestamps (the data-model invariant) every comparison sort
produces the same list. -/
def sortByTimestamp (xs : List Bar) : List Bar :=
  xs.foldr (insertBy (fun a b => decide (a.timestamp ≤ b.timestamp))) []

/-- Model of the pandas slice `df.iloc[-n:]`: the last `n` rows, except
that `-0` means the whole frame (Python `-0 == 0`). -/
def ilocLastN {α : Type} (n : Nat) (xs : List α) : List α :=
  if n = 0 then xs else xs.drop (xs.length - n)

/-- Model of pandas `.max()` over a numeric column (callers only apply
it to nonempty columns). -/
def listMax : List Rat → Rat
  | [] => 0
  | h :: t => t.foldl max h

/-- Model of pandas `.min()` over a numeric column. -/
def listMin : List Rat → Rat
  | [] => 0
  | h :: t => t.foldl min h

/-- Model of pandas `.mean()`; on the empty column pandas yields NaN,
modelled as `0` here — in `apply_screening` both are caught by the same
NaN/zero critical-data guard. -/
def listMean (xs : List Rat) : Rat :=
  xs.sum / (xs.length : Rat)

/-- Last value of `series.ewm(span, adjust=False).mean()`
(screener_logic.py lines 80-81): the recursive EMA
`y0 = x0`, `y = alpha * x + (1 - alpha) * y_prev` with
`alpha = 2 / (span + 1)`. -/
def ewmLast (span : Nat) (xs : List Rat) : Rat :=
  let alpha : Rat := 2 / ((span : Rat) + 1)
  match xs with
  | [] => 0
  | h :: t => t.foldl (fun acc x => alpha * x + (1 - alpha) * acc) h

/-- `avg_volume_df = df.iloc[-(AVG_VOLUME_LOOKBACK + 1):-1]` followed by
`avg_volume_df['volume'].mean()` (screener_logic.py lines 94-95): the
mean volume of the last `n` bars strictly before the latest bar. -/
def avgVolumeCalc (n : Nat) (s : List Bar) : Rat :=
  listMean (((s.dropLast).drop (s.dropLast.length - n)).map Bar.volume)

/-- The latest candle `df.iloc[-1]` of the sorted series
(screener_logic.py line 83); the default is never used, since callers
reach this only on nonempty series. -/
def latestOf (l : List Bar) : Bar :=
  (sortByTimestamp l).getLastD default

/-- `period_high = lookback_df['high'].max()` over
`lookback_df = df.iloc[-LOOKBACK_PERIOD:]` of the sorted series
(screener_logic.py lines 90-91). -/
def periodHighOf (cfg : ScreenerConfig) (l : List Bar) : Rat :=
  listMax ((ilocLastN cfg.lookback_period (sortByTimestamp l)).map Bar.high)

/-- `period_low = lookback_df['low'].min()` (screener_logic.py line 92). -/
def periodLowOf (cfg : ScreenerConfig) (l : List Bar) : Rat :=
  listMin ((ilocLastN cfg.lookback_period (sortByTimestamp l)).map Bar.low)

/-- `avg_volume_lookback_val` of the sorted series
(screener_logic.py lines 94-95). -/
def avgVolumeOf (cfg : ScreenerConfig) (l : List Bar) : Rat :=
  avgVolumeCalc cfg.avg_volume_lookback (sortByTimestamp l)

/-- `df['ema_long'].iloc[-1]` of the sorted series (screener_logic.py line 80). -/
def emaLongOf (cfg : ScreenerConfig) (l : List Bar) : Rat :=
  ewmLast cfg.ema_period_long ((sortByTimestamp l).map Bar.close)

/-- `df['ema_short'].iloc[-1]` of the sorted series (screener_logic.py line 81). -/
def emaShortOf (cfg : ScreenerConfig) (l : List Bar) : Rat :=
  ewmLast cfg.ema_period_short ((sortByTimestamp l).map Bar.close)

/-- The `results['metrics']` dictionary populated at
screener_logic.py lines 118-126. -/
structure Metrics where
  price_drop_pct : Rat
  close_price : Rat
  ema_50 : Rat
  ema_20 : Rat
  volume : Rat
  avg_volume_50d : Rat
  volume_ratio : Rat
  deriving DecidableEq

/-- The `results['metrics']` dictionary of the evaluated branch of
`apply_screening` (screener_logic.py lines 115-126), with the
zero-denominator guards of lines 115-116: `price_drop_pct` and
`volume_ratio` are formed by division only when `period_high > 0`
resp. `avg_volume > 0`, and are `0` otherwise. -/
def metricsOf (cfg : ScreenerConfig) (l : List Bar) : Metrics :=
  { price_drop_pct :=
      if periodHighOf cfg l > 0 then
        100 * ((periodHighOf cfg l - (latestOf l).close) / periodHighOf cfg l)
      else 0
    close_price := (latestOf l).close
    ema_50 := emaLongOf cfg l
    ema_20 := emaShortOf cfg l
    volume := (latestOf l).volume
    avg_volume_50d := avgVolumeOf cfg l
    volume_ratio :=
      if avgVolumeOf cfg l > 0 then (latestOf l).volume / avgVolumeOf cfg l else 0 }

/-- Rule 1 (line 129): `price_drop_pct < PRICE_DROP_FROM_HIGH_PERCENT_MAX`. -/
def rule1 (cfg : ScreenerConfig) (m : Metrics) : Bool :=
  decide (m.price_drop_pct < cfg.price_drop_percent_max)

/-- Rule 2 (line 134): `price_drop_pct > PRICE_DROP_FROM_HIGH_PERCENT_MIN`. -/
def rule2 (cfg : ScreenerConfig) (m : Metrics) : Bool :=
  decide (m.price_drop_pct > cfg.price_drop_percent_min)

/-- Rule 3 (line 139): `latest_close > latest_ema_long`. -/
def rule3 (m : Metrics) : Bool :=
  decide (m.close_price > m.ema_50)

/-- Rule 4 (line 144): `latest_close > MIN_CLOSE_PRICE`. -/
def rule4 (cfg : ScreenerConfig) (m : Metrics) : Bool :=
  decide (m.close_price > cfg.min_price)

/-- Rule 5 (line 149): `VOLUME_SURGE_MULTIPLIER_MIN < volume_ratio < VOLUME_SURGE_MULTIPLIER_MAX`. -/
def rule5 (cfg : ScreenerConfig) (m : Metrics) : Bool :=
  decide (cfg.volume_surge_min < m.volume_ratio) && decide (m.volume_ratio < cfg.volume_surge_max)

/-- Rule 6 (line 154): `latest_ema_short > latest_ema_long`. -/
def rule6 (m : Metrics) : Bool :=
  decide (m.ema_20 > m.ema_50)

/-- Rule 7 (line 161): `latest_close <= MAX_PRICE` (only evaluated when
`ENABLE_MAX_PRICE_LIMIT`). -/
def rule7 (cfg : ScreenerConfig) (m : Metrics) : Bool :=
  decide (m.close_price ≤ cfg.max_price)

/-- Outcome of the rule-evaluation block of `apply_screening`
(lines 112-199): the per-rule booleans, the incrementally accumulated
`rules_passed_count`, and the `all_rules_passed` conjunction.
`passed_rule7` is `none` when the max-price rule is disabled, matching
the conditionally present dictionary key. -/
structure RuleOutcome where
  passed_rule1 : Bool
  passed_rule2 : Bool
  passed_rule3 : Bool
  passed_rule4 : Bool
  passed_rule5 : Bool
  passed_rule6 : Bool
  passed_rule7 : Option Bool
  rules_passed_count : Nat
  all_rules_passed : Bool
  deriving DecidableEq

/-- The rule-evaluation block of `apply_screening`
(screener_logic.py lines 112-199), with the count accumulated rule by
rule exactly as in the source. -/
def evalRules (cfg : ScreenerConfig) (m : Metrics) : RuleOutcome :=
  let r1 := rule1 cfg m
  let c1 : Nat := if r1 then 1 else 0
  let r2 := rule2 cfg m
  let c2 := if r2 then c1 + 1 else c1
  let r3 := rule3 m
  let c3 := if r3 then c2 + 1 else c2
  let r4 := rule4 cfg m
  let c4 := if r4 then c3 + 1 else c3
  let r5 := rule5 cfg m
  let c5 := if r5 then c4 + 1 else c4
  let r6 := rule6 m
  let c6 := if r6 then c5 + 1 else c5
  let r7 : Option Bool := if cfg.enable_max_price_limit then some (rule7 cfg m) else none
  let c7 := match r7 with
    | some true => c6 + 1
    | _ => c6
  let allPassed := r1 && r2 && r3 && r4 && r5 && r6 &&
    (match r7 with
     | some b => b
     | none => true)
  { passed_rule1 := r1, passed_rule2 := r2, passed_rule3 := r3,
    passed_rule4 := r4, passed_rule5 := r5, passed_rule6 := r6,
    passed_rule7 := r7, rules_passed_count := c7, all_rules_passed := allPassed }

/-- The `results['reason']` strings of `apply_screening`, abstracted to
the branch that produced them: `"No data"`, `"Insufficient data (got < required)"`,
`"NaN/Zero in critical data"`, `"Passed all criteria"`,
`"Failed: <rule tags>"`, `"Error: <exception>"`. -/
inductive Reason where
  | noData
  | insufficientData (got required : Nat)
  | nanZero
  | passedAll
  | failedRules (failed : List Nat)
  | error
  deriving DecidableEq

/-- The result dictionary returned by `apply_screening`
(screener_logic.py lines 40-59): optional fields are `None` until the
corresponding `results.update` runs; `passed_rule7` is present only
when `ENABLE_MAX_PRICE_LIMIT` is set. -/
structure ScreenResult where
  symbol : String
  close : Option Rat
  period_high : Option Rat
  period_low : Option Rat
  volume : Option Rat
  avg_volume_50d : Option Rat
  timestamp : Option Int
  passed_rule1 : Bool
  passed_rule2 : Bool
  passed_rule3 : Bool
  passed_rule4 : Bool
  passed_rule5 : Bool
  passed_rule6 : Bool
  passed_rule7 : Option Bool
  rules_passed_count : Nat
  metrics : Option Metrics
  failed_overall : Bool
  reason : Option Reason
  isin : Option String
  deriving DecidableEq

/-- The freshly initialised `results` dictionary
(screener_logic.py lines 40-62) before any screening step has run. -/
def baseResult (cfg : ScreenerConfig) (symbol : String) : ScreenResult :=
  { symbol := symbol
    close := none, period_high := none, period_low := none
    volume := none, avg_volume_50d := none, timestamp := none
    passed_rule1 := false, passed_rule2 := false, passed_rule3 := false
    passed_rule4 := false, passed_rule5 := false, passed_rule6 := false
    passed_rule7 := if cfg.enable_max_price_limit then some false else none
    rules_passed_count := 0
    metrics := none
    failed_overall := true
    reason := none
    isin := none }

/-- The list of failed-rule tags built at screener_logic.py
lines 207-215 (each tag abstracted to its rule number). -/
def failedRuleTags (cfg : ScreenerConfig) (o : RuleOutcome) : List Nat :=
  (if o.passed_rule1 then [] else [1]) ++
  (if o.passed_rule2 then [] else [2]) ++
  (if o.passed_rule3 then [] else [3]) ++
  (if o.passed_rule4 then [] else [4]) ++
  (if o.passed_rule5 then [] else [5]) ++
  (if o.passed_rule6 then [] else [6]) ++
  (if cfg.enable_max_price_limit && !(o.passed_rule7.getD true) then [7] else [])

/-- Full model of `apply_screening(df, symbol)`
(screener_logic.py lines 25-219).  `df = none` models a `None`
DataFrame.  Rational inputs cannot produce NaN, so the
`pd.isna`/zero guard of line 107 reduces to its zero checks. -/
def applyScreening (cfg : ScreenerConfig) (df : Option (List Bar)) (symbol : String) :
    ScreenResult :=
  let base := baseResult cfg symbol
  match df with
  | none => { base with reason := some .noData }
  | some l =>
    if l.isEmpty then { base with reason := some .noData }
    else if l.length < requiredCandles cfg then
      { base with reason := some (.insufficientData l.length (requiredCandles cfg)) }
    else
      -- the list is nonempty here, so the `getLastD` default inside `latestOf` is never used
      let latest := latestOf l
      let period_high := periodHighOf cfg l
      let period_low := periodLowOf cfg l
      let avg_volume := avgVolumeOf cfg l
      let updated := { base with
        close := some latest.close
        period_high := some period_high
        period_low := some period_low
        volume := some latest.volume
        avg_volume_50d := some avg_volume
        timestamp := some latest.timestamp }
      if period_high = 0 ∨ period_low = 0 ∨ avg_volume = 0 then
        { updated with reason := some .nanZero }
      else
        let m := metricsOf cfg l
        let o := evalRules cfg m
        { updated with
          metrics := some m
          passed_rule1 := o.passed_rule1
          passed_rule2 := o.passed_rule2
          passed_rule3 := o.passed_rule3
          passed_rule4 := o.passed_rule4
          passed_rule5 := o.passed_rule5
          passed_rule6 := o.passed_rule6
          passed_rule7 := o.passed_rule7
          rules_passed_count := o.rules_passed_count
          failed_overall := !o.all_rules_passed
          reason := some (if o.all_rules_passed then .passedAll else .failedRules (failedRuleTags cfg o)) }

/-- The `except` branch of `apply_screening`
(screener_logic.py lines 221-227): an exception raised inside the `try`
block leaves the initialised result dictionary as it was — every
exception-capable statement precedes the rule-flag mutations — and only
sets `reason` and `failed_overall`. -/
def applyScreeningExn (cfg : ScreenerConfig) (symbol : String) : ScreenResult :=
  { baseResult cfg symbol with reason := some .error, failed_overall := true }

/-- One upstream response inside the retry loop of
`fetch_historical_data` (data_fetcher.py lines 194-243), classified by
the branch of the source that handles it. -/
inductive UpstreamResponse where
  | rateLimited
  | httpError
  | otherException
  | apiStatusFailure
  | noCandles
  | success (candles : List Bar)
  deriving DecidableEq

/-- Outcome of `fetch_historical_data`, distinguishing the source
branch that produced it (the Python function returns the DataFrame on
success and `None` on every failure; the failure branches differ only
in their log message). -/
inductive FetchOutcome where
  | fetched (candles : List Bar)
  | failed (cause : UpstreamResponse)
  | maxRetriesExceeded
  deriving DecidableEq

/-- Responses that make `fetch_historical_data` return `None`
immediately, with no retry: a non-429 HTTP error, any other exception,
an API status other than `success`, or an empty candle list. -/
def immediateFailure : UpstreamResponse → Bool
  | .httpError => true
  | .otherException => true
  | .apiStatusFailure => true
  | .noCandles => true
  | _ => false

/-- The `for attempt in range(max_retries)` loop of
`fetch_historical_data` (data_fetcher.py lines 193-245), over an oracle
giving the upstream response of each attempt.  Returns the outcome and
the list of backoff delays slept (in seconds): on HTTP 429 the code
sleeps `2 ** attempt` and continues; on any other failure it returns at
once; after the loop it reports max retries exceeded. -/
def fetchLoop (responses : Nat → UpstreamResponse) : Nat → Nat → FetchOutcome × List Nat
  | _, 0 => (.maxRetriesExceeded, [])
  | attempt, fuel + 1 =>
    match responses attempt with
    | .success candles => (.fetched candles, [])
    | .rateLimited =>
      let rest := fetchLoop responses (attempt + 1) fuel
      (rest.1, 2 ^ attempt :: rest.2)
    | r => (.failed r, [])

/-- `fetch_historical_data` with `max_retries = 3`
(data_fetcher.py line 193), as a function of the upstream responses. -/
def fetchHistoricalData (responses : Nat → UpstreamResponse) : FetchOutcome × List Nat :=
  fetchLoop responses 0 3

/-- One entry of the validated stock list iterated by `run_screener`
(main.py lines 73-76). -/
structure Stock where
  symbol : String
  isin : String
  deriving DecidableEq

/-- Behaviour of the data fetch for one instrument inside
`run_screener` (main.py lines 80-90): either it returns a DataFrame
(possibly `None`), or it raises and the handler sets the DataFrame to
`None`. -/
inductive FetchBehavior where
  | ok (df : Option (List Bar))
  | exn
  deriving DecidableEq

/-- Behaviour of the screening call for one instrument inside
`run_screener` (main.py lines 93-113): either `apply_screening` returns
normally, or an exception escapes and the handler appends a placeholder
record. -/
inductive ScreenBehavior where
  | ok
  | exn
  deriving DecidableEq

/-- The placeholder record appended when an exception escapes the
screening call (main.py lines 107-113): only `symbol`, `isin`,
`failed_overall`, `reason` and `rules_passed_count` are present;
downstream readers default every missing rule flag to `False`. -/
def screeningErrorPlaceholder (st : Stock) : ScreenResult :=
  { symbol := st.symbol
    close := none, period_high := none, period_low := none
    volume := none, avg_volume_50d := none, timestamp := none
    passed_rule1 := false, passed_rule2 := false, passed_rule3 := false
    passed_rule4 := false, passed_rule5 := false, passed_rule6 := false
    passed_rule7 := none
    rules_passed_count := 0
    metrics := none
    failed_overall := true
    reason := some .error
    isin := some st.isin }

/-- The body of the per-instrument loop of `run_screener`
(main.py lines 73-117): fetch (an exception yields `df = None`), then
screen (an exception yields the placeholder record), and record the
ISIN on the result. -/
def processStock (cfg : ScreenerConfig) (fb : FetchBehavior) (sb : ScreenBehavior)
    (st : Stock) : ScreenResult :=
  let df : Option (List Bar) :=
    match fb with
    | .ok d => d
    | .exn => none
  match sb with
  | .ok => { applyScreening cfg df st.symbol with isin := some st.isin }
  | .exn => screeningErrorPlaceholder st

/-- The `all_screening_results` list accumulated by `run_screener`
(main.py lines 69-117): one append per iteration of the stock loop. -/
def runScreenerResults (cfg : ScreenerConfig) (fetchOf : Stock → FetchBehavior)
    (screenOf : Stock → ScreenBehavior) (stocks : List Stock) : List ScreenResult :=
  stocks.map (fun st => processStock cfg (fetchOf st) (screenOf st) st)

/-- `shortlisted_stocks = [res for res in all_screening_results if not res.get('failed_overall', True)]`
(main.py line 123). -/
def shortlistedStocks (results : List ScreenResult) : List ScreenResult :=
  results.filter (fun r => !r.failed_overall)

/-- `TOTAL_RULES = 4` at the top of failure_report.py (line 24) — a
constant of that module, distinct from the screener's 6-or-7 total. -/
def failureReportTotalRules : Nat := 4

/-- The data computation of `generate_failure_report`
(failure_report.py lines 26-75): resolve `min_rules_passed = None` to
`0`, filter by `rules_passed_count >= min_rules_passed` only when the
threshold is positive, then compute `total_failed` and the
`almost_passed` statistic.  Building the statistics HTML divides
`almost_passed / total_failed`, which raises `ZeroDivisionError` when
the filtered list is empty; that exception is modelled as `Except.error`
(the `try` in the source only guards the file write). -/
def generateFailureReport (failed_stocks : List ScreenResult)
    (min_rules_passed : Option Nat) : Except Unit (List ScreenResult × Nat) :=
  let m := min_rules_passed.getD 0
  let fs := if m > 0 then failed_stocks.filter (fun s => m ≤ s.rules_passed_count)
            else failed_stocks
  let total_failed := fs.length
  let almost_passed :=
    (fs.filter (fun s => s.rules_passed_count = failureReportTotalRules - 1)).length
  if total_failed = 0 then .error ()
  else .ok (fs, almost_passed)

/-- Number of true entries among the applicable rule booleans of an
outcome: rules 1-6 always, plus rule 7 exactly when it was evaluated. -/
def applicableTrueCount (o : RuleOutcome) : Nat :=
  o.passed_rule1.toNat + o.passed_rule2.toNat + o.passed_rule3.toNat +
  o.passed_rule4.toNat + o.passed_rule5.toNat + o.passed_rule6.toNat +
  (match o.passed_rule7 with
   | some b => b.toNat
   | none => 0)

/-- A result record on which no rule fired: every per-rule flag is
false (rule 7 being false or absent as configured), the count is zero
and the record is marked failed. -/
def noRulesEvaluated (r : ScreenResult) : Prop :=
  r.passed_rule1 = false ∧ r.passed_rule2 = false ∧ r.passed_rule3 = false ∧
  r.passed_rule4 = false ∧ r.passed_rule5 = false ∧ r.passed_rule6 = false ∧
  (r.passed_rule7 = none ∨ r.passed_rule7 = some false) ∧
  r.rules_passed_count = 0 ∧ r.failed_overall = true

/-- The repository's default screener configuration (config.py default
settings / config.yaml): 50-bar lookbacks, 20/50 EMAs, 0-10 percent
drop band, 2.0x-2.5x volume-surge band, 25-1500 price band with the
max-price rule enabled. -/
def cfgDefault : ScreenerConfig :=
  { lookback_period := 50, min_price := 25, max_price := 1500
    enable_max_price_limit := true
    price_drop_percent_max := 10, price_drop_percent_min := 0
    ema_period_long := 50, ema_period_short := 20
    avg_volume_lookback := 50
    volume_surge_min := 2, volume_surge_max := 5 / 2 }

/-- A degenerate configuration whose drop band and volume band collapse
to a point, used to exhibit all four boundary cases at one input. -/
def cfgDegenerate : ScreenerConfig :=
  { cfgDefault with price_drop_percent_max := 5, price_drop_percent_min := 5
                    volume_surge_min := 2, volume_surge_max := 2 }

/-- A metrics record sitting exactly on the collapsed boundaries of
`cfgDegenerate`. -/
def mBoundary : Metrics :=
  { price_drop_pct := 5, close_price := 100, ema_50 := 95, ema_20 := 98
    volume := 200, avg_volume_50d := 100, volume_ratio := 2 }

/-- A single well-formed candle, used for short-series inputs. -/
def barZ : Bar :=
  { timestamp := 1, open_ := 10, high := 12, low := 9, close := 11
    volume := 1000, open_interest := 0 }

/-- C1: for every metrics input evaluated by `apply_screening`,
`rules_passed_count` equals the number of true entries among the
applicable rule booleans (rules 1-6, plus rule 7 when
`enable_max_price_limit` is set), and the overall pass
(`failed_overall == false`, i.e. `all_rules_passed`) holds iff
`rules_passed_count` equals `total_rules` (7 when the max-price rule is
enabled, 6 otherwise). -/
theorem C1_count_matches_flags_and_overall (cfg : ScreenerConfig) (m : Metrics) :
    (evalRules cfg m).rules_passed_count = applicableTrueCount (evalRules cfg m) ∧
    ((evalRules cfg m).all_rules_passed = true ↔
      (evalRules cfg m).rules_passed_count = totalRules cfg) := by
  cases h1 : rule1 cfg m <;> cases h2 : rule2 cfg m <;> cases h3 : rule3 m <;>
    cases h4 : rule4 cfg m <;> cases h5 : rule5 cfg m <;> cases h6 : rule6 m <;>
    cases he : cfg.enable_max_price_limit <;> cases h7 : rule7 cfg m <;>
    simp [evalRules, totalRules, applicableTrueCount, h1, h2, h3, h4, h5, h6, he, h7]

/-- C2: threshold comparisons are strict, so boundary values fail:
`price_drop_pct` equal to `price_drop_percent_max` fails rule 1, equal
to `price_drop_percent_min` fails rule 2, and `volume_ratio` equal to
either `volume_surge_min` or `volume_surge_max` fails rule 5. -/
theorem C2_boundary_values_fail (cfg : ScreenerConfig) (m : Metrics) :
    (m.price_drop_pct = cfg.price_drop_percent_max → rule1 cfg m = false) ∧
    (m.price_drop_pct = cfg.price_drop_percent_min → rule2 cfg m = false) ∧
    (m.volume_ratio = cfg.volume_surge_min → rule5 cfg m = false) ∧
    (m.volume_ratio = cfg.volume_surge_max → rule5 cfg m = false) := by
  refine ⟨fun h => ?_, fun h => ?_, fun h => ?_, fun h => ?_⟩ <;>
    simp [rule1, rule2, rule5, h]

/-- Witness for C2 at a concrete boundary input: under `cfgDegenerate`,
`mBoundary` sits exactly on every threshold and rules 1, 2 and 5 all
fail. -/
theorem C2_boundary_values_fail_witness :
    rule1 cfgDegenerate mBoundary = false ∧
    rule2 cfgDegenerate mBoundary = false ∧
    rule5 cfgDegenerate mBoundary = false :=
  ⟨(C2_boundary_values_fail cfgDegenerate mBoundary).1 rfl,
   (C2_boundary_values_fail cfgDegenerate mBoundary).2.1 rfl,
   (C2_boundary_values_fail cfgDegenerate mBoundary).2.2.1 rfl⟩

theorem noRulesEvaluated_of_base_reason (cfg : ScreenerConfig) (symbol : String)
    (r : Reason) : noRulesEvaluated { baseResult cfg symbol with reason := some r } := by
  refine ⟨rfl, rfl, rfl, rfl, rfl, rfl, ?_, rfl, rfl⟩
  cases h : cfg.enable_max_price_limit <;> simp [baseResult, h]

theorem applyScreening_none_eq (cfg : ScreenerConfig) (symbol : String) :
    applyScreening cfg none symbol = { baseResult cfg symbol with reason := some .noData } :=
  rfl

theorem applyScreening_empty_eq (cfg : ScreenerConfig) (symbol : String) (l : List Bar)
    (h : l.isEmpty = true) :
    applyScreening cfg (some l) symbol =
      { baseResult cfg symbol with reason := some .noData } := by
  simp [applyScreening, h]

theorem applyScreening_short_eq (cfg : ScreenerConfig) (symbol : String) (l : List Bar)
    (h1 : l.isEmpty = false) (h2 : l.length < requiredCandles cfg) :
    applyScreening cfg (some l) symbol =
      { baseResult cfg symbol with
          reason := some (.insufficientData l.length (requiredCandles cfg)) } := by
  simp [applyScreening, h1, h2]

/-- C3: for a `None` DataFrame, an empty series, or a series shorter
than `max(lookback_period, avg_volume_lookback + 1, ema_period_long, ema_period_short)`,
`apply_screening` returns an insufficient-data result: the reason is
the no-data or insufficient-data tag, no rule is evaluated, and no
metric field is populated. -/
theorem C3_short_series_insufficient (cfg : ScreenerConfig) (df : Option (List Bar))
    (symbol : String)
    (h : df = none ∨ ∃ l, df = some l ∧ (l = [] ∨ l.length < requiredCandles cfg)) :
    (applyScreening cfg df symbol).metrics = none ∧
    (applyScreening cfg df symbol).close = none ∧
    (applyScreening cfg df symbol).period_high = none ∧
    (applyScreening cfg df symbol).avg_volume_50d = none ∧
    noRulesEvaluated (applyScreening cfg df symbol) ∧
    ((applyScreening cfg df symbol).reason = some .noData ∨
      ∃ g, (applyScreening cfg df symbol).reason =
        some (.insufficientData g (requiredCandles cfg))) := by
  rcases h with rfl | ⟨l, rfl, hl⟩
  · rw [applyScreening_none_eq]
    exact ⟨rfl, rfl, rfl, rfl, noRulesEvaluated_of_base_reason cfg symbol .noData, Or.inl rfl⟩
  · by_cases hemp : l.isEmpty = true
    · rw [applyScreening_empty_eq cfg symbol l hemp]
      exact ⟨rfl, rfl, rfl, rfl, noRulesEvaluated_of_base_reason cfg symbol .noData, Or.inl rfl⟩
    · have hemp' : l.isEmpty = false := by simpa using hemp
      have hlen : l.length < requiredCandles cfg := by
        rcases hl with rfl | hl
        · simp at hemp'
        · exact hl
      rw [applyScreening_short_eq cfg symbol l hemp' hlen]
      exact ⟨rfl, rfl, rfl, rfl,
        noRulesEvaluated_of_base_reason cfg symbol (.insufficientData l.length (requiredCandles cfg)),
        Or.inr ⟨l.length, rfl⟩⟩

/-- Witness for C3 at a concrete input: one candle against the default
configuration (51 required) yields an unevaluated, unpopulated result. -/
theorem C3_short_series_insufficient_witness :
    (applyScreening cfgDefault (some [barZ]) "A").metrics = none ∧
    noRulesEvaluated (applyScreening cfgDefault (some [barZ]) "A") := by
  have h := C3_short_series_insufficient cfgDefault (some [barZ]) "A"
    (Or.inr ⟨[barZ], rfl, Or.inr (by decide)⟩)
  exact ⟨h.1, h.2.2.2.2.1⟩

/-- A second candle whose volume is 7, for perturbation tests. -/
def barZ7 : Bar :=
  { timestamp := 2, open_ := 10, high := 12, low := 9, close := 11
    volume := 7, open_interest := 0 }

/-- Like `barZ7` but with volume 9: only the latest volume differs. -/
def barZ9 : Bar :=
  { timestamp := 2, open_ := 10, high := 12, low := 9, close := 11
    volume := 9, open_interest := 0 }

/-- C4: `avg_volume` is the mean of `volume` over the
`avg_volume_lookback` bars immediately preceding the latest bar, the
latest bar's volume excluded: on a series `xs ++ [b]` the computation
never reads `b`, so perturbing the latest bar leaves it unchanged, and
when at least `n` earlier bars exist it equals the mean of the last `n`
volumes of `xs`. -/
theorem C4_avg_volume_excludes_latest (n : Nat) (xs : List Bar) (b bp : Bar) :
    avgVolumeCalc n (xs ++ [b]) = avgVolumeCalc n (xs ++ [bp]) ∧
    (n ≤ xs.length →
      avgVolumeCalc n (xs ++ [b]) =
        ((xs.drop (xs.length - n)).map Bar.volume).sum / (n : Rat)) := by
  constructor
  · simp [avgVolumeCalc, List.dropLast_concat]
  · intro hn
    simp only [avgVolumeCalc, listMean, List.dropLast_concat, List.length_map,
      List.length_drop]
    rw [Nat.cast_sub (Nat.sub_le xs.length n), Nat.cast_sub hn]
    congr 1
    ring

/-- Witness for C4 at a concrete input: two two-bar series differing
only in the latest bar's volume share `avg_volume = 1000`. -/
theorem C4_avg_volume_excludes_latest_witness :
    avgVolumeCalc 1 ([barZ] ++ [barZ7]) = avgVolumeCalc 1 ([barZ] ++ [barZ9]) ∧
    avgVolumeCalc 1 ([barZ] ++ [barZ7]) = 1000 := by
  have h := C4_avg_volume_excludes_latest 1 [barZ] barZ7 barZ9
  refine ⟨h.1, ?_⟩
  rw [h.2 (by decide)]
  norm_num [barZ]
/-- C5: the retry policy of `fetch_historical_data` over the sequence
of upstream responses: three consecutive rate-limit responses exhaust
the `max_retries = 3` attempts, sleeping the exponential backoff delays
1s, 2s, 4s, and surface the max-retries-exceeded failure; any
non-rate-limit error fails immediately with no further attempt and no
backoff sleep beyond those already performed; a success returns the
candles at once. -/
theorem C5_fetch_retry_policy (r : Nat → UpstreamResponse) :
    (r 0 = .rateLimited → r 1 = .rateLimited → r 2 = .rateLimited →
      fetchHistoricalData r = (.maxRetriesExceeded, [1, 2, 4])) ∧
    (immediateFailure (r 0) = true → fetchHistoricalData r = (.failed (r 0), [])) ∧
    (r 0 = .rateLimited → immediateFailure (r 1) = true →
      fetchHistoricalData r = (.failed (r 1), [1])) ∧
    (r 0 = .rateLimited → r 1 = .rateLimited → immediateFailure (r 2) = true →
      fetchHistoricalData r = (.failed (r 2), [1, 2])) ∧
    (∀ c, r 0 = .success c → fetchHistoricalData r = (.fetched c, [])) := by
  refine ⟨fun h0 h1 h2 => ?_, fun h0 => ?_, fun h0 h1 => ?_, fun h0 h1 h2 => ?_,
    fun c h0 => ?_⟩
  · simp [fetchHistoricalData, fetchLoop, h0, h1, h2]
  · cases h : r 0 <;> simp_all [fetchHistoricalData, fetchLoop, immediateFailure]
  · cases h : r 1 <;> simp_all [fetchHistoricalData, fetchLoop, immediateFailure]
  · cases h : r 2 <;> simp_all [fetchHistoricalData, fetchLoop, immediateFailure]
  · simp [fetchHistoricalData, fetchLoop, h0]

/-- Witness for C5 at concrete response sequences: all-429 exhausts
with delays 1, 2, 4; an immediate HTTP error fails with no delay; a 429
followed by an HTTP error fails after the single 1s backoff. -/
theorem C5_fetch_retry_policy_witness :
    fetchHistoricalData (fun _ => .rateLimited) = (.maxRetriesExceeded, [1, 2, 4]) ∧
    fetchHistoricalData (fun _ => .httpError) = (.failed .httpError, []) ∧
    fetchHistoricalData (fun n => if n = 0 then .rateLimited else .httpError) =
      (.failed .httpError, [1]) ∧
    fetchHistoricalData (fun n => if n ≤ 1 then .rateLimited else .otherException) =
      (.failed .otherException, [1, 2]) ∧
    fetchHistoricalData (fun _ => .success [barZ]) = (.fetched [barZ], []) :=
  ⟨(C5_fetch_retry_policy (fun _ => .rateLimited)).1 rfl rfl rfl,
   (C5_fetch_retry_policy (fun _ => .httpError)).2.1 rfl,
   (C5_fetch_retry_policy (fun n => if n = 0 then .rateLimited else .httpError)).2.2.1
     rfl rfl,
   (C5_fetch_retry_policy (fun n => if n ≤ 1 then .rateLimited else .otherException)).2.2.2.1
     rfl rfl rfl,
   (C5_fetch_retry_policy (fun _ => .success [barZ])).2.2.2.2 [barZ] rfl⟩


theorem applyScreening_nanZero_eq (cfg : ScreenerConfig) (symbol : String) (l : List Bar)
    (h1 : l.isEmpty = false) (h2 : ¬ l.length < requiredCandles cfg)
    (h3 : periodHighOf cfg l = 0 ∨ periodLowOf cfg l = 0 ∨ avgVolumeOf cfg l = 0) :
    applyScreening cfg (some l) symbol =
      { baseResult cfg symbol with
          close := some (latestOf l).close
          period_high := some (periodHighOf cfg l)
          period_low := some (periodLowOf cfg l)
          volume := some (latestOf l).volume
          avg_volume_50d := some (avgVolumeOf cfg l)
          timestamp := some (latestOf l).timestamp
          reason := some .nanZero } := by
  simp [applyScreening, h1, h2, h3]

theorem applyScreening_eval_eq (cfg : ScreenerConfig) (symbol : String) (l : List Bar)
    (h1 : l.isEmpty = false) (h2 : ¬ l.length < requiredCandles cfg)
    (h3 : ¬ (periodHighOf cfg l = 0 ∨ periodLowOf cfg l = 0 ∨ avgVolumeOf cfg l = 0)) :
    applyScreening cfg (some l) symbol =
      { baseResult cfg symbol with
          close := some (latestOf l).close
          period_high := some (periodHighOf cfg l)
          period_low := some (periodLowOf cfg l)
          volume := some (latestOf l).volume
          avg_volume_50d := some (avgVolumeOf cfg l)
          timestamp := some (latestOf l).timestamp
          metrics := some (metricsOf cfg l)
          passed_rule1 := (evalRules cfg (metricsOf cfg l)).passed_rule1
          passed_rule2 := (evalRules cfg (metricsOf cfg l)).passed_rule2
          passed_rule3 := (evalRules cfg (metricsOf cfg l)).passed_rule3
          passed_rule4 := (evalRules cfg (metricsOf cfg l)).passed_rule4
          passed_rule5 := (evalRules cfg (metricsOf cfg l)).passed_rule5
          passed_rule6 := (evalRules cfg (metricsOf cfg l)).passed_rule6
          passed_rule7 := (evalRules cfg (metricsOf cfg l)).passed_rule7
          rules_passed_count := (evalRules cfg (metricsOf cfg l)).rules_passed_count
          failed_overall := !(evalRules cfg (metricsOf cfg l)).all_rules_passed
          reason := some (if (evalRules cfg (metricsOf cfg l)).all_rules_passed
            then .passedAll
            else .failedRules (failedRuleTags cfg (evalRules cfg (metricsOf cfg l)))) } := by
  simp [applyScreening, h1, h2, h3]

def cfg9 : ScreenerConfig :=
  { lookback_period := 2, min_price := 25, max_price := 1500
    enable_max_price_limit := true
    price_drop_percent_max := 10, price_drop_percent_min := 0
    ema_period_long := 2, ema_period_short := 1
    avg_volume_lookback := 1
    volume_surge_min := 2, volume_surge_max := 5 / 2 }

def s9 : List Bar :=
  [ { timestamp := 1, open_ := -5, high := -5, low := -6, close := -5
      volume := 10, open_interest := 0 },
    { timestamp := 2, open_ := -4, high := -4, low := -5, close := -4
      volume := 20, open_interest := 0 } ]

def s9z : List Bar :=
  [ { timestamp := 1, open_ := 5, high := 5, low := 4, close := 5
      volume := 0, open_interest := 0 },
    { timestamp := 2, open_ := 6, high := 6, low := 5, close := 6
      volume := 20, open_interest := 0 } ]

/-- Counterexample to C9 as stated: a sufficient-length series whose
`period_high` is negative (hence `<= 0`) is NOT treated as invalid —
`apply_screening` evaluates the rules and populates the metrics
(`price_drop_pct` is set to the guard value 0 instead). -/
theorem C9_counterexample :
    periodHighOf cfg9 s9 < 0 ∧
    (applyScreening cfg9 (some s9) "X").metrics ≠ none ∧
    (applyScreening cfg9 (some s9) "X").reason ≠ some .nanZero := by
  have hph : periodHighOf cfg9 s9 = -4 := by
    norm_num [periodHighOf, listMax, ilocLastN, sortByTimestamp, insertBy, cfg9, s9]
  have hpl : periodLowOf cfg9 s9 = -6 := by
    norm_num [periodLowOf, listMin, ilocLastN, sortByTimestamp, insertBy, cfg9, s9]
  have hav : avgVolumeOf cfg9 s9 = 10 := by
    norm_num [avgVolumeOf, avgVolumeCalc, listMean, sortByTimestamp, insertBy, cfg9, s9]
  have h3 : ¬ (periodHighOf cfg9 s9 = 0 ∨ periodLowOf cfg9 s9 = 0 ∨ avgVolumeOf cfg9 s9 = 0) := by
    rw [hph, hpl, hav]
    norm_num
  rw [applyScreening_eval_eq cfg9 "X" s9 (by decide) (by decide) h3]
  refine ⟨by rw [hph]; norm_num, by simp, ?_⟩
  cases (evalRules cfg9 (metricsOf cfg9 s9)).all_rules_passed <;> simp

/-- C9 as amended: `apply_screening` treats an exactly-zero
`period_high` or `avg_volume` (the equality tests of line 107) as
invalid data, returning the NaN/zero result with no rules evaluated;
and whenever rules are evaluated, the divisions forming
`price_drop_pct` and `volume_ratio` are guarded so that a non-positive
`period_high` or `avg_volume` yields the value 0 instead of a division
by a non-positive denominator. -/
theorem C9_zero_guards (cfg : ScreenerConfig) (l : List Bar) (symbol : String)
    (h1 : l.isEmpty = false) (h2 : ¬ l.length < requiredCandles cfg) :
    ((periodHighOf cfg l = 0 ∨ avgVolumeOf cfg l = 0) →
      (applyScreening cfg (some l) symbol).metrics = none ∧
      (applyScreening cfg (some l) symbol).reason = some .nanZero ∧
      noRulesEvaluated (applyScreening cfg (some l) symbol)) ∧
    (∀ m, (applyScreening cfg (some l) symbol).metrics = some m →
      (periodHighOf cfg l ≤ 0 → m.price_drop_pct = 0) ∧
      (avgVolumeOf cfg l ≤ 0 → m.volume_ratio = 0)) := by
  constructor
  · intro h
    have h3 : periodHighOf cfg l = 0 ∨ periodLowOf cfg l = 0 ∨ avgVolumeOf cfg l = 0 := by
      tauto
    rw [applyScreening_nanZero_eq cfg symbol l h1 h2 h3]
    refine ⟨rfl, rfl, rfl, rfl, rfl, rfl, rfl, rfl, ?_, rfl, rfl⟩
    cases he : cfg.enable_max_price_limit <;> simp [baseResult, he]
  · intro m hm
    by_cases h3 : periodHighOf cfg l = 0 ∨ periodLowOf cfg l = 0 ∨ avgVolumeOf cfg l = 0
    · rw [applyScreening_nanZero_eq cfg symbol l h1 h2 h3] at hm
      simp [baseResult] at hm
    · rw [applyScreening_eval_eq cfg symbol l h1 h2 h3] at hm
      simp only [Option.some.injEq] at hm
      subst hm
      constructor
      · intro hle
        simp only [metricsOf]
        rw [if_neg (not_lt.mpr hle)]
      · intro hle
        simp only [metricsOf]
        rw [if_neg (not_lt.mpr hle)]

/-- Witness for C9 at concrete inputs: a series whose preceding-bar
volume is 0 is rejected as NaN/zero with no metrics, and on the
negative-`period_high` series the guarded `price_drop_pct` is 0. -/
theorem C9_zero_guards_witness :
    (applyScreening cfg9 (some s9z) "Z").metrics = none ∧
    (applyScreening cfg9 (some s9z) "Z").reason = some .nanZero ∧
    (metricsOf cfg9 s9).price_drop_pct = 0 := by
  have hz : avgVolumeOf cfg9 s9z = 0 := by
    norm_num [avgVolumeOf, avgVolumeCalc, listMean, sortByTimestamp, insertBy, cfg9, s9z]
  have h := (C9_zero_guards cfg9 s9z "Z" (by decide) (by decide)).1 (Or.inr hz)
  have hph : periodHighOf cfg9 s9 = -4 := by
    norm_num [periodHighOf, listMax, ilocLastN, sortByTimestamp, insertBy, cfg9, s9]
  have hpl : periodLowOf cfg9 s9 = -6 := by
    norm_num [periodLowOf, listMin, ilocLastN, sortByTimestamp, insertBy, cfg9, s9]
  have hav : avgVolumeOf cfg9 s9 = 10 := by
    norm_num [avgVolumeOf, avgVolumeCalc, listMean, sortByTimestamp, insertBy, cfg9, s9]
  have h3 : ¬ (periodHighOf cfg9 s9 = 0 ∨ periodLowOf cfg9 s9 = 0 ∨ avgVolumeOf cfg9 s9 = 0) := by
    rw [hph, hpl, hav]
    norm_num
  have hm : (applyScreening cfg9 (some s9) "X").metrics = some (metricsOf cfg9 s9) := by
    rw [applyScreening_eval_eq cfg9 "X" s9 (by decide) (by decide) h3]
  have h4 := (C9_zero_guards cfg9 s9 "X" (by decide) (by decide)).2 (metricsOf cfg9 s9) hm
  exact ⟨h.1, h.2.1, h4.1 (by rw [hph]; norm_num)⟩

/-- A configuration under which every rule can fail at once (the drop
band is empty and the price ceiling sits below the floor). -/
def cfgAllFail : ScreenerConfig :=
  { cfgDefault with price_drop_percent_max := 0, max_price := 5 }

/-- A metrics record failing rules 1-7 under `cfgAllFail`. -/
def mAllFail : Metrics :=
  { price_drop_pct := 0, close_price := 10, ema_50 := 10, ema_20 := 10
    volume := 0, avg_volume_50d := 1, volume_ratio := 0 }

/-- C10 (implicit): every result on which no rule was evaluated — no
data, insufficient length, zero critical values, or the exception
branch — carries all-false rule flags, `rules_passed_count = 0` and
`failed_overall = True`; and an evaluated record that fails every
applicable rule carries exactly the same flag vector, count and
overall flag, so the two are indistinguishable by those fields. -/
theorem C10_unevaluated_records_cleared (cfg : ScreenerConfig) (df : Option (List Bar))
    (symbol : String) :
    ((applyScreening cfg df symbol).metrics = none →
      noRulesEvaluated (applyScreening cfg df symbol)) ∧
    noRulesEvaluated (applyScreeningExn cfg symbol) ∧
    (∀ m : Metrics, rule1 cfg m = false → rule2 cfg m = false → rule3 m = false →
      rule4 cfg m = false → rule5 cfg m = false → rule6 m = false →
      (cfg.enable_max_price_limit = true → rule7 cfg m = false) →
      (evalRules cfg m).passed_rule1 = false ∧
      (evalRules cfg m).passed_rule2 = false ∧
      (evalRules cfg m).passed_rule3 = false ∧
      (evalRules cfg m).passed_rule4 = false ∧
      (evalRules cfg m).passed_rule5 = false ∧
      (evalRules cfg m).passed_rule6 = false ∧
      ((evalRules cfg m).passed_rule7 = none ∨
        (evalRules cfg m).passed_rule7 = some false) ∧
      (evalRules cfg m).rules_passed_count = 0 ∧
      (evalRules cfg m).all_rules_passed = false) := by
  refine ⟨?_, ?_, ?_⟩
  · intro h
    cases df with
    | none =>
      rw [applyScreening_none_eq]
      exact noRulesEvaluated_of_base_reason cfg symbol .noData
    | some l =>
      by_cases hemp : l.isEmpty = true
      · rw [applyScreening_empty_eq cfg symbol l hemp]
        exact noRulesEvaluated_of_base_reason cfg symbol .noData
      · have hemp' : l.isEmpty = false := by simpa using hemp
        by_cases hlen : l.length < requiredCandles cfg
        · rw [applyScreening_short_eq cfg symbol l hemp' hlen]
          exact noRulesEvaluated_of_base_reason cfg symbol
            (.insufficientData l.length (requiredCandles cfg))
        · by_cases h3 : periodHighOf cfg l = 0 ∨ periodLowOf cfg l = 0 ∨ avgVolumeOf cfg l = 0
          · rw [applyScreening_nanZero_eq cfg symbol l hemp' hlen h3]
            refine ⟨rfl, rfl, rfl, rfl, rfl, rfl, ?_, rfl, rfl⟩
            cases he : cfg.enable_max_price_limit <;> simp [baseResult, he]
          · rw [applyScreening_eval_eq cfg symbol l hemp' hlen h3] at h
            simp at h
  · refine ⟨rfl, rfl, rfl, rfl, rfl, rfl, ?_, rfl, rfl⟩
    cases he : cfg.enable_max_price_limit <;> simp [applyScreeningExn, baseResult, he]
  · intro m h1 h2 h3 h4 h5 h6 h7
    cases he : cfg.enable_max_price_limit
    · simp [evalRules, h1, h2, h3, h4, h5, h6, he]
    · simp [evalRules, h1, h2, h3, h4, h5, h6, he, h7 he]

/-- Witness for C10 at concrete inputs: the no-data record is cleared,
and the all-rules-fail evaluation carries the same cleared fields. -/
theorem C10_unevaluated_records_cleared_witness :
    noRulesEvaluated (applyScreening cfg9 none "S") ∧
    (evalRules cfgAllFail mAllFail).rules_passed_count = 0 ∧
    (evalRules cfgAllFail mAllFail).all_rules_passed = false := by
  have h := (C10_unevaluated_records_cleared cfg9 none "S").1 rfl
  have h2 := (C10_unevaluated_records_cleared cfgAllFail none "S").2.2 mAllFail
    (by norm_num [rule1, cfgAllFail, cfgDefault, mAllFail])
    (by norm_num [rule2, cfgAllFail, cfgDefault, mAllFail])
    (by norm_num [rule3, mAllFail])
    (by norm_num [rule4, cfgAllFail, cfgDefault, mAllFail])
    (by norm_num [rule5, cfgAllFail, cfgDefault, mAllFail])
    (by norm_num [rule6, mAllFail])
    (fun _ => by norm_num [rule7, cfgAllFail, cfgDefault, mAllFail])
  exact ⟨h, h2.2.2.2.2.2.2.2.1, h2.2.2.2.2.2.2.2.2⟩

/-- C6: every instrument yields exactly one result record; the loop
body is applied pointwise, so the record of each instrument is a
function of that instrument's own fetch/screen behaviour, and changing
one instrument's behaviour leaves every other instrument's record
unchanged; a fetch exception becomes that instrument's no-data failure
record and a screening exception becomes its placeholder failure
record. -/
theorem C6_per_instrument_isolation (cfg : ScreenerConfig)
    (fetchOf fetchOfP : Stock → FetchBehavior)
    (screenOf screenOfP : Stock → ScreenBehavior)
    (stocks pre post : List Stock) (st : Stock) :
    (runScreenerResults cfg fetchOf screenOf stocks).length = stocks.length ∧
    runScreenerResults cfg fetchOf screenOf (pre ++ st :: post) =
      runScreenerResults cfg fetchOf screenOf pre ++
        processStock cfg (fetchOf st) (screenOf st) st ::
          runScreenerResults cfg fetchOf screenOf post ∧
    (st ∉ pre → st ∉ post →
      (∀ u, u ≠ st → fetchOfP u = fetchOf u) →
      (∀ u, u ≠ st → screenOfP u = screenOf u) →
      runScreenerResults cfg fetchOfP screenOfP (pre ++ st :: post) =
        runScreenerResults cfg fetchOf screenOf pre ++
          processStock cfg (fetchOfP st) (screenOfP st) st ::
            runScreenerResults cfg fetchOf screenOf post) ∧
    (fetchOf st = .exn → screenOf st = .ok →
      (processStock cfg (fetchOf st) (screenOf st) st).failed_overall = true ∧
      (processStock cfg (fetchOf st) (screenOf st) st).reason = some .noData) ∧
    (screenOf st = .exn →
      (processStock cfg (fetchOf st) (screenOf st) st).failed_overall = true ∧
      (processStock cfg (fetchOf st) (screenOf st) st).reason = some .error) := by
  refine ⟨?_, ?_, ?_, ?_, ?_⟩
  · simp [runScreenerResults]
  · simp [runScreenerResults]
  · intro hpre hpost hf hs
    simp only [runScreenerResults, List.map_append, List.map_cons]
    congr 1
    · exact List.map_congr_left fun u hu => by
        rw [hf u (by rintro rfl; exact hpre hu), hs u (by rintro rfl; exact hpre hu)]
    · congr 1
      exact List.map_congr_left fun u hu => by
        rw [hf u (by rintro rfl; exact hpost hu), hs u (by rintro rfl; exact hpost hu)]
  · intro hf hs
    rw [processStock.eq_def, hf, hs]
    exact ⟨rfl, rfl⟩
  · intro hs
    rw [processStock.eq_def, hs]
    exact ⟨rfl, rfl⟩

def stA : Stock := { symbol := "AAA", isin := "INE1" }

def stB : Stock := { symbol := "BBB", isin := "INE2" }

/-- Fetch oracle for the witness run: instrument `stA` raises during
fetch, every other instrument fetches an empty DataFrame. -/
def fetchW : Stock → FetchBehavior := fun u => if u = stA then .exn else .ok (some [])

/-- Screen oracle for the witness run: instrument `stB` raises during
screening, every other instrument screens normally. -/
def screenW : Stock → ScreenBehavior := fun u => if u = stB then .exn else .ok

/-- Witness for C6 at a concrete two-instrument run: both instruments
produce exactly one record each, the fetch-exception instrument gets
the no-data failure record, the screening-exception instrument gets the
placeholder error record, and the run decomposes pointwise. -/
theorem C6_per_instrument_isolation_witness :
    (runScreenerResults cfgDefault fetchW screenW [stA, stB]).length = 2 ∧
    (processStock cfgDefault (fetchW stA) (screenW stA) stA).reason = some .noData ∧
    (processStock cfgDefault (fetchW stB) (screenW stB) stB).reason = some .error ∧
    runScreenerResults cfgDefault fetchW screenW ([] ++ stA :: [stB]) =
      runScreenerResults cfgDefault fetchW screenW [] ++
        processStock cfgDefault (fetchW stA) (screenW stA) stA ::
          runScreenerResults cfgDefault fetchW screenW [stB] := by
  have h := C6_per_instrument_isolation cfgDefault fetchW fetchW screenW screenW
    [stA, stB] [] [stB] stA
  have hB := C6_per_instrument_isolation cfgDefault fetchW fetchW screenW screenW
    [] [] [] stB
  refine ⟨h.1, ?_, ?_, ?_⟩
  · exact (h.2.2.2.1 (by decide) (by decide)).2
  · exact (hB.2.2.2.2 (by decide)).2
  · exact h.2.2.1 (by decide) (by decide) (fun u _ => rfl) (fun u _ => rfl)

/-- A screening result that passed every rule (as produced for a
full-pass instrument), used as aggregator input. -/
def rPassStub : ScreenResult :=
  { symbol := "P"
    close := some 100, period_high := some 105, period_low := some 90
    volume := some 240000, avg_volume_50d := some 100000, timestamp := some 3
    passed_rule1 := true, passed_rule2 := true, passed_rule3 := true
    passed_rule4 := true, passed_rule5 := true, passed_rule6 := true
    passed_rule7 := some true
    rules_passed_count := 7
    metrics := none
    failed_overall := false
    reason := some .passedAll
    isin := some "INE9" }

/-- C7 evaluation at the failing input: called as `run_screener` calls
it — `min_rules_passed = None` — `generate_failure_report` resolves the
threshold to 0, not `total_rules - 1`: its report set keeps an
unevaluated no-data record (`rules_passed_count = 0`, a data-quality
reason) and even a full-pass record, and its almost-passed statistic
counts against the stale module constant `TOTAL_RULES = 4`. -/
theorem C7_default_threshold_includes_unevaluated :
    (applyScreening cfgDefault none "A").failed_overall = true ∧
    (applyScreening cfgDefault none "A").reason = some .noData ∧
    (applyScreening cfgDefault none "A").rules_passed_count = 0 ∧
    rPassStub.failed_overall = false ∧
    generateFailureReport [applyScreening cfgDefault none "A", rPassStub] none =
      .ok ([applyScreening cfgDefault none "A", rPassStub], 0) :=
  ⟨rfl, rfl, rfl, rfl, rfl⟩

/-- C8 evaluation at the failing input: filtering `shortlisted_stocks`
from an empty result list succeeds with the empty passed set, but
`generate_failure_report` on an empty list — or with a threshold that
filters out every record — divides `almost_passed` by a zero
`total_failed` while formatting its statistics and raises
`ZeroDivisionError` instead of producing an empty near-miss report. -/
theorem C8_empty_aggregation_raises :
    shortlistedStocks [] = [] ∧
    generateFailureReport [] none = .error () ∧
    generateFailureReport [applyScreening cfgDefault none "A"] (some 6) = .error () :=
  ⟨rfl, rfl, rfl⟩
